import Mathlib

/-!
Shallow embedding of `src/Health_care_bot.py` (class `HealthCareBot`).

Text is modelled as `List Char`.  The Python string operations the bot uses
(`str.replace`, `str.strip`, the substring test `in`, `re.search` for the
fixed pattern `\[USER_DATA_JSON\]\s*(\{.*?\})` with `re.DOTALL`,
`json.loads`, `json.dumps`) are embedded below.  The Supabase tables the
bot touches (`users`, `plan_history`) are modelled as an explicit `DB`
state; a transport/auth failure of a query (an exception raised by
`execute()`) is modelled by `QueryResult.err`.  The whitespace classes are
the ASCII ones the bot's data actually exercises.
-/

/-- Character list of a string literal. -/
def lc (s : String) : List Char := s.data

/-- Opening curly brace character. -/
def lbrace : Char := Char.ofNat 123

/-- Closing curly brace character. -/
def rbrace : Char := Char.ofNat 125

/-- Apostrophe character, used inside the Python f-string prompts. -/
def apos : Char := Char.ofNat 39

/-- ASCII whitespace: the class matched by Python `\s` and stripped by `str.strip`. -/
def isSpace (c : Char) : Bool :=
  c == ' ' || c == '\t' || c == '\n' || c == '\r' || c.toNat == 11 || c.toNat == 12

/-- ASCII digit test. -/
def isDigit (c : Char) : Bool := decide (48 ≤ c.toNat ∧ c.toNat ≤ 57)

/-- Prefix test on character lists (does the second list start with the first). -/
def isPre : List Char → List Char → Bool
  | [], _ => true
  | _ :: _, [] => false
  | p :: ps, c :: cs => if p = c then isPre ps cs else false

/-- Model of the Python substring test `pat in s`. -/
def containsSub (pat : List Char) : List Char → Bool
  | [] => pat.isEmpty
  | c :: cs => isPre pat (c :: cs) || containsSub pat cs

/-- Fuel-driven worker for `removeAll`; fuel bounds the number of scanned positions. -/
def removeAllAux (old : List Char) : Nat → List Char → List Char
  | 0, s => s
  | _ + 1, [] => []
  | fuel + 1, c :: cs =>
    if isPre old (c :: cs) && !old.isEmpty then
      removeAllAux old fuel ((c :: cs).drop old.length)
    else
      c :: removeAllAux old fuel cs

/-- Model of Python `s.replace(old, "")`: drop every (non-overlapping, leftmost-first)
occurrence of `old` from `s`. -/
def removeAll (old s : List Char) : List Char := removeAllAux old s.length s

/-- Model of Python `str.lstrip()` for ASCII whitespace. -/
def lstrip (s : List Char) : List Char := s.dropWhile isSpace

/-- Model of Python `str.rstrip()` for ASCII whitespace. -/
def rstrip (s : List Char) : List Char := (s.reverse.dropWhile isSpace).reverse

/-- Model of Python `str.strip()` for ASCII whitespace. -/
def strip (s : List Char) : List Char := rstrip (lstrip s)

/-- JSON values as produced by the Python `json` module.  Numbers are restricted to
integers: the bot's profile payloads and every input exercised by the claims are
integer-valued, so the float part of `json.loads` is not modelled. -/
inductive Json where
  | null : Json
  | bool (b : Bool) : Json
  | num (n : Int) : Json
  | str (chars : List Char) : Json
  | arr (elems : List Json) : Json
  | obj (kvs : List (List Char × Json)) : Json

/-- JSON inter-token whitespace (space, tab, newline, carriage return). -/
def isJsonWs (c : Char) : Bool := c == ' ' || c == '\t' || c == '\n' || c == '\r'

/-- Skip JSON inter-token whitespace. -/
def skipWs (s : List Char) : List Char := s.dropWhile isJsonWs

/-- JSON string escape characters accepted after a backslash (the `\uXXXX` form is
not modelled; no bot input uses it). -/
def escChar (c : Char) : Option Char :=
  if c = '"' then some '"'
  else if c = '\\' then some '\\'
  else if c = '/' then some '/'
  else if c = 'n' then some '\n'
  else if c = 't' then some '\t'
  else if c = 'r' then some '\r'
  else if c = 'b' then some (Char.ofNat 8)
  else if c = 'f' then some (Char.ofNat 12)
  else none

/-- Parse the body of a JSON string literal (the opening quote already consumed);
returns the decoded characters and the remainder after the closing quote. -/
def parseStringLit : List Char → Option (List Char × List Char)
  | [] => none
  | '"' :: r => some ([], r)
  | '\\' :: c :: r =>
    match escChar c with
    | some e =>
      match parseStringLit r with
      | some (cs, rest) => some (e :: cs, rest)
      | none => none
    | none => none
  | c :: r =>
    match parseStringLit r with
    | some (cs, rest) => some (c :: cs, rest)
    | none => none

/-- Numeric value of a digit run. -/
def natOfDigits (ds : List Char) : Nat :=
  ds.foldl (fun n c => 10 * n + (c.toNat - 48)) 0

/-- Parse a JSON natural-number literal (rejecting a leading zero on a multi-digit
run, as `json.loads` does). -/
def parseNat (s : List Char) : Option (Nat × List Char) :=
  match s.takeWhile isDigit, s.dropWhile isDigit with
  | [], _ => none
  | [d], rest => some (d.toNat - 48, rest)
  | d :: d2 :: ds, rest =>
    if d = '0' then none else some (natOfDigits (d :: d2 :: ds), rest)

/-- Parsing modes: a single value, the members of an object after its opening
brace, or the elements of an array after its opening bracket. -/
inductive PM where
  | val : PM
  | members : PM
  | elems : PM

/-- Fuel-driven recursive-descent JSON parser (model of the Python `json` decoder
on the integer-valued subset).  In `PM.members` / `PM.elems` mode it consumes
through the closing brace / bracket and returns the collected object / array. -/
def parseCore : Nat → PM → List Char → Option (Json × List Char)
  | 0, _, _ => none
  | fuel + 1, PM.val, s =>
    match s with
    | 'n' :: 'u' :: 'l' :: 'l' :: r => some (Json.null, r)
    | 't' :: 'r' :: 'u' :: 'e' :: r => some (Json.bool true, r)
    | 'f' :: 'a' :: 'l' :: 's' :: 'e' :: r => some (Json.bool false, r)
    | '"' :: r =>
      match parseStringLit r with
      | some (cs, rest) => some (Json.str cs, rest)
      | none => none
    | '[' :: r =>
      match skipWs r with
      | ']' :: r2 => some (Json.arr [], r2)
      | r2 => parseCore fuel PM.elems r2
    | '-' :: r =>
      match parseNat r with
      | some (n, rest) => some (Json.num (-(n : Int)), rest)
      | none => none
    | c :: r =>
      if c = lbrace then
        match skipWs r with
        | c2 :: r2 =>
          if c2 = rbrace then some (Json.obj [], r2)
          else parseCore fuel PM.members (c2 :: r2)
        | [] => none
      else if isDigit c then
        match parseNat (c :: r) with
        | some (n, rest) => some (Json.num (n : Int), rest)
        | none => none
      else none
    | [] => none
  | fuel + 1, PM.members, s =>
    match s with
    | '"' :: r =>
      match parseStringLit r with
      | none => none
      | some (key, r1) =>
        match skipWs r1 with
        | ':' :: r2 =>
          match parseCore fuel PM.val (skipWs r2) with
          | none => none
          | some (v, r3) =>
            match skipWs r3 with
            | ',' :: r4 =>
              match parseCore fuel PM.members (skipWs r4) with
              | some (Json.obj kvs, r5) => some (Json.obj ((key, v) :: kvs), r5)
              | _ => none
            | c :: r4 => if c = rbrace then some (Json.obj [(key, v)], r4) else none
            | [] => none
        | _ => none
    | _ => none
  | fuel + 1, PM.elems, s =>
    match parseCore fuel PM.val s with
    | none => none
    | some (v, r1) =>
      match skipWs r1 with
      | ',' :: r2 =>
        match parseCore fuel PM.elems (skipWs r2) with
        | some (Json.arr vs, r3) => some (Json.arr (v :: vs), r3)
        | _ => none
      | ']' :: r2 => some (Json.arr [v], r2)
      | _ => none

/-- Model of Python `json.loads`: parse one JSON value and require that only
whitespace follows it (`json.loads` raises `Extra data` otherwise, which the
bot turns into a `None` result). -/
def jsonParse (s : List Char) : Option Json :=
  match parseCore (s.length + 1) PM.val (skipWs s) with
  | some (v, rest) => if skipWs rest = [] then some v else none
  | none => none

/-- Python truthiness of a decoded JSON value (`not x` in the bot's guards):
`None`, `False`, `0`, `""`, `[]` and the empty dict are falsy. -/
def jsonTruthy : Json → Bool
  | Json.null => false
  | Json.bool b => b
  | Json.num n => decide (n ≠ 0)
  | Json.str cs => !cs.isEmpty
  | Json.arr xs => !xs.isEmpty
  | Json.obj kvs => !kvs.isEmpty

/-- The terminal plan marker literal `[END_OF_PLAN]`. -/
def endMarker : List Char := lc "[END_OF_PLAN]"

/-- The payload marker literal `[USER_DATA_JSON]`. -/
def payloadMarker : List Char := lc "[USER_DATA_JSON]"

/-- Negated closing-brace test, the character class of the lazy `.*?` span. -/
def notRb (c : Char) : Bool := !(c == rbrace)

/-- Attempt of the pattern tail `\s*(\{.*?\})` (with `re.DOTALL`) at a fixed
position, `rest` being the text just after an occurrence of the payload
marker: skip the maximal whitespace run, require an opening brace, and take
the lazy span up to the first closing brace.  Returns the whitespace run and
regex group 1. -/
def matchAt (rest : List Char) : Option (List Char × List Char) :=
  let ws := rest.takeWhile isSpace
  match rest.dropWhile isSpace with
  | c :: r =>
    if c = lbrace then
      match r.dropWhile notRb with
      | _ :: _ => some (ws, lbrace :: (r.takeWhile notRb ++ [rbrace]))
      | [] => none
    else none
  | [] => none

/-- Model of `re.search(r"\[USER_DATA_JSON\]\s*(\{.*?\})", text, re.DOTALL)`:
scan left to right for the first position where the whole pattern matches;
returns (group 0, group 1) of the leftmost match. -/
def searchPayload : List Char → Option (List Char × List Char)
  | [] => none
  | c :: cs =>
    if isPre payloadMarker (c :: cs) then
      match matchAt ((c :: cs).drop payloadMarker.length) with
      | some (ws, g1) => some ((payloadMarker ++ ws) ++ g1, g1)
      | none => searchPayload cs
    else searchPayload cs

/-- Model of `HealthCareBot._extract_profile_json` (source lines 168-175):
regex-search for the payload span; `json.loads` it; a parse failure is logged
and yields `None` rather than raising. -/
def extract_profile_json (text : List Char) : Option Json :=
  match searchPayload text with
  | some (_, g1) => jsonParse g1
  | none => none

/-- Model of `HealthCareBot._extract_plan_text` (source lines 177-190): drop
every occurrence of the terminal marker and strip; if the payload pattern
matches, drop every occurrence of its full match (group 0) and strip; return
the result stripped again.  Total by construction (the source's `except`
branch is unreachable for these string operations). -/
def extract_plan_text (text : List Char) : List Char :=
  let p1 := strip (removeAll endMarker text)
  let p2 :=
    match searchPayload p1 with
    | some (g0, _) => strip (removeAll g0 p1)
    | none => p1
  strip p2

/-- Serializer modes for `json.dumps`: one value, remaining array elements,
or remaining object members. -/
inductive DJ where
  | one (j : Json) : DJ
  | arrTail (xs : List Json) : DJ
  | objTail (kvs : List (List Char × Json)) : DJ

/-- Minimal JSON string escaping (quote and backslash), as `json.dumps` emits. -/
def dumpEsc (cs : List Char) : List Char :=
  cs.flatMap (fun c => if c = '"' || c = '\\' then ['\\', c] else [c])

/-- Fuel-driven worker for `json_dumps`, with Python's default separators
`", "` and `": "`. -/
def dumpCore : Nat → DJ → List Char
  | 0, _ => []
  | fuel + 1, DJ.one j =>
    match j with
    | Json.null => lc "null"
    | Json.bool true => lc "true"
    | Json.bool false => lc "false"
    | Json.num n => lc (toString n)
    | Json.str cs => '"' :: (dumpEsc cs ++ ['"'])
    | Json.arr [] => lc "[]"
    | Json.arr (x :: xs) => ('[' :: dumpCore fuel (DJ.one x)) ++ dumpCore fuel (DJ.arrTail xs)
    | Json.obj [] => [lbrace, rbrace]
    | Json.obj ((k, v) :: kvs) =>
      (lbrace :: ('"' :: (dumpEsc k ++ lc "\": "))) ++ dumpCore fuel (DJ.one v)
        ++ dumpCore fuel (DJ.objTail kvs)
  | _ + 1, DJ.arrTail [] => lc "]"
  | fuel + 1, DJ.arrTail (x :: xs) =>
    (lc ", " ++ dumpCore fuel (DJ.one x)) ++ dumpCore fuel (DJ.arrTail xs)
  | _ + 1, DJ.objTail [] => [rbrace]
  | fuel + 1, DJ.objTail ((k, v) :: kvs) =>
    (lc ", " ++ ('"' :: (dumpEsc k ++ lc "\": "))) ++ dumpCore fuel (DJ.one v)
      ++ dumpCore fuel (DJ.objTail kvs)

mutual

/-- Structural size of a JSON value, used to bound the serializer's fuel. -/
def jsonSize : Json → Nat
  | Json.null => 1
  | Json.bool _ => 1
  | Json.num _ => 1
  | Json.str _ => 1
  | Json.arr xs => 1 + jsonListSize xs
  | Json.obj kvs => 1 + jsonKvsSize kvs

/-- Structural size of a list of JSON values. -/
def jsonListSize : List Json → Nat
  | [] => 1
  | x :: xs => 1 + jsonSize x + jsonListSize xs

/-- Structural size of a list of JSON object members. -/
def jsonKvsSize : List (List Char × Json) → Nat
  | [] => 1
  | (_, v) :: kvs => 1 + jsonSize v + jsonKvsSize kvs

end

/-- Model of Python `json.dumps` (default separators); the fuel bound covers
any nesting a profile value can have. -/
def json_dumps (j : Json) : List Char := dumpCore (2 * jsonSize j + 2) (DJ.one j)

/-- A decoded profile payload: the key/value pairs of the JSON object, in
insertion order (a Python `dict`). -/
abbrev ProfileDict := List (List Char × Json)

/-- Python `d[k] = v` on a dict: overwrite in place if the key exists, else
append. -/
def setKey : ProfileDict → List Char → Json → ProfileDict
  | [], k, v => [(k, v)]
  | (k0, v0) :: rest, k, v =>
    if k0 = k then (k, v) :: rest else (k0, v0) :: setKey rest k v

/-- Python `d.get(k)` on a dict: first binding of the key, if any. -/
def getKey : ProfileDict → List Char → Option Json
  | [], _ => none
  | (k0, v0) :: rest, k => if k0 = k then some v0 else getKey rest k

/-- The `users.user_id` column / dict key. -/
def userIdKey : List Char := lc "user_id"

/-- The `name` profile key. -/
def nameKey : List Char := lc "name"

/-- One `plan_history` row. -/
structure PlanRow where
  user_id : Nat
  plan_text : List Char
  profile_json : ProfileDict
  start_date : Nat
  end_date : Option Nat

/-- The two durable tables the plan/profile path touches: `users` (primary key
`user_id`) and `plan_history`.  The append-only `conversation_history` table
is written by best-effort logging outside this state (claims C3-C5, C9, C10
are about profile upsert and plan close/insert only). -/
structure DB where
  users : List (Nat × ProfileDict)
  plans : List PlanRow

/-- The empty database. -/
def dbEmpty : DB := { users := [], plans := [] }

/-- Supabase `upsert` on `users`, keyed by the primary key `user_id`: replace
the row with that key wholesale, or insert it. -/
def upsertUser (uid : Nat) (row : ProfileDict) : List (Nat × ProfileDict) → List (Nat × ProfileDict)
  | [] => [(uid, row)]
  | (u, r) :: rest =>
    if u = uid then (uid, row) :: rest else (u, r) :: upsertUser uid row rest

/-- The conditional update `update({end_date: now}).eq(user_id, uid).is_(end_date, None)`:
set the end date on every currently-open row of the user. -/
def closeOpen (uid now : Nat) : List PlanRow → List PlanRow
  | [] => []
  | r :: rs =>
    (if r.user_id = uid ∧ r.end_date = none then { r with end_date := some now } else r)
      :: closeOpen uid now rs

/-- Model of `HealthCareBot.save_new_plan_and_profile` (source lines 192-222)
in the connected configuration: a falsy (empty) profile is an immediate
no-op; otherwise upsert the profile (a copy with `user_id` written over),
close every open plan row of the user, and insert one new open row whose
`profile_json` snapshot is the caller's original dict. -/
def save_new_plan_and_profile (uid : Nat) (profile : ProfileDict) (plan : List Char)
    (now : Nat) (db : DB) : DB :=
  if profile.isEmpty then db
  else
    { users := upsertUser uid (setKey profile userIdKey (Json.num (uid : Int))) db.users,
      plans := closeOpen uid now db.plans
        ++ [{ user_id := uid, plan_text := plan, profile_json := profile,
              start_date := now, end_date := none }] }

/-- The open (`end_date` null) plan rows of a user. -/
def openRows (uid : Nat) : List PlanRow → List PlanRow
  | [] => []
  | r :: rs =>
    if r.user_id = uid ∧ r.end_date = none then r :: openRows uid rs else openRows uid rs

/-- Outcome of one Supabase query: its rows, or a raised transport/auth error. -/
inductive QueryResult (α : Type) where
  | ok (rows : List α) : QueryResult α
  | err : QueryResult α

/-- What `_load_profile` hands back on success. -/
structure LoadedProfile where
  profile : ProfileDict
  last_plan : List Char

/-- The default last-plan text. -/
def noPlanMsg : List Char := lc "No previous plan found."

/-- Model of `HealthCareBot._load_profile` (source lines 114-152) in the
connected configuration, as a function of the outcomes of its two queries
(the `users` point lookup and the newest-open-plan lookup): a raised error
anywhere in the `try` block is caught and yields `None`, exactly like the
row-absent case. -/
def load_profile (profileQ : QueryResult ProfileDict)
    (planQ : QueryResult (List Char)) : Option LoadedProfile :=
  match profileQ with
  | QueryResult.err => none
  | QueryResult.ok [] => none
  | QueryResult.ok (p :: _) =>
    match planQ with
    | QueryResult.err => none
    | QueryResult.ok [] => some { profile := p, last_plan := noPlanMsg }
    | QueryResult.ok (t :: _) => some { profile := p, last_plan := t }

/-- Rendering of a profile value inside an f-string (`profile.get("name", "friend")`
then `f"({name})"`): a string renders as its characters, a missing key as the
default `friend`; other scalar values are rendered through the serializer model. -/
def profileName (p : ProfileDict) : List Char :=
  match getKey p nameKey with
  | some (Json.str cs) => cs
  | some j => json_dumps j
  | none => lc "friend"

/-- The `initial_prompt` of the returning-user branch (source lines 255-261),
an f-string embedding `json.dumps(profile)`, the last plan text, the name and
the user's first message. -/
def initial_prompt_returning (ud : LoadedProfile) (user_message : List Char) : List Char :=
  lc "SYSTEM_NOTE: Returning user. Profile: " ++ json_dumps (Json.obj ud.profile)
    ++ lc ". Last plan: " ++ [apos] ++ ud.last_plan
    ++ ([apos] ++ lc ". Greet them by name (") ++ profileName ud.profile
    ++ lc ") and ask what they need. Their first message: " ++ [apos] ++ user_message
    ++ ([apos] ++ lc ".\n\nREMINDER: If you generate a new wellness PLAN, you MUST follow RULE A and include [USER_DATA_JSON] on the first line and [END_OF_PLAN] as the last token.")

/-- The `initial_prompt` of the brand-new-user branch (source lines 263-268). -/
def initial_prompt_new (user_message : List Char) : List Char :=
  lc "SYSTEM_NOTE: Brand new user. Start the health profile questions. Their first message: "
    ++ [apos] ++ user_message
    ++ ([apos] ++ lc ".\n\nREMINDER: When you later generate a full wellness PLAN, you MUST follow RULE A and include [USER_DATA_JSON] on the first line and [END_OF_PLAN] as the last token.")

/-- The priming context the first-turn branch computes: returning-user or
brand-new-user form, selected on the result of `_load_profile`. -/
def initial_prompt (load_result : Option LoadedProfile) (user_message : List Char) : List Char :=
  match load_result with
  | some ud => initial_prompt_returning ud user_message
  | none => initial_prompt_new user_message

/-- The reminder the first-turn branch appends to the user's message in the
`send_message_async` call it actually makes (source lines 270-273). -/
def firstTurnReminder : List Char :=
  lc "\n\nREMINDER: If generating a full wellness plan, you MUST follow RULE A: Start with [USER_DATA_JSON] \x7b...\x7d then 10 numbered points, then [END_OF_PLAN]."

/-- The reminder appended on every later turn of an active session (source
lines 277-281). -/
def activeSessionReminder : List Char :=
  lc "\n\nREMINDER: If the user is asking for a new or updated wellness PLAN, you MUST follow RULE A and include [USER_DATA_JSON] on the first line and [END_OF_PLAN] as the last token of the message."

/-- Python truthiness of the extractor's result (`if not profile_json`). -/
def profileTruthy : Option Json → Bool
  | none => false
  | some j => jsonTruthy j

/-- The dict carried by a decoded payload (the extractor can only return an
object value, since the regex span starts with an opening brace). -/
def toDict : Option Json → ProfileDict
  | some (Json.obj kvs) => kvs
  | _ => []

/-- What one turn of `main_chat_handler` produces: the text forwarded to the
model engine, the reply delivered to the user, and the resulting durable
state of the `users` / `plan_history` tables. -/
structure TurnResult where
  forwarded : List Char
  reply : List Char
  db : DB

/-- Model of `HealthCareBot.main_chat_handler` (source lines 225-306) in the
configured, non-raising run: `session_exists` is whether
`context.user_data` already holds a chat session, `load_result` the result
of `_load_profile`, and `respond` the model engine (forwarded text to
response text).  On the first turn the source builds `initial_prompt`
(lines 248-268) but line 270 forwards `user_message` plus a generic
reminder instead, so the built prompt is bound here and never used, exactly
as in the source.  The best-effort `_log_conversation` inserts touch only
the `conversation_history` table, which is outside `DB`. -/
def main_chat_handler (uid : Nat) (user_message : List Char) (session_exists : Bool)
    (load_result : Option LoadedProfile) (respond : List Char → List Char)
    (now : Nat) (db : DB) : TurnResult :=
  let forwarded :=
    if session_exists then
      user_message ++ activeSessionReminder
    else
      let _initial_prompt := initial_prompt load_result user_message
      user_message ++ firstTurnReminder
  let ai_message := respond forwarded
  let outcome : List Char × DB :=
    if containsSub endMarker ai_message then
      let profile_json := extract_profile_json ai_message
      if profileTruthy profile_json then
        let plan_text := extract_plan_text ai_message
        (strip plan_text, save_new_plan_and_profile uid (toDict profile_json) plan_text now db)
      else
        (strip (removeAll endMarker ai_message), db)
    else
      (ai_message, db)
  { forwarded := forwarded, reply := outcome.1, db := outcome.2 }

/-- Text after the first payload-marker occurrence, its whitespace run skipped;
formalises the claim phrase "immediately after the payload marker". -/
def afterPayloadMarker : List Char → Option (List Char)
  | [] => none
  | c :: cs =>
    if isPre payloadMarker (c :: cs) then
      some (((c :: cs).drop payloadMarker.length).dropWhile isSpace)
    else afterPayloadMarker cs

/-- Parse one JSON value at the head of the text, ignoring what follows;
formalises "a syntactically valid JSON object sits here". -/
def parseHeadValue (s : List Char) : Option Json :=
  match parseCore (s.length + 1) PM.val s with
  | some (v, _) => some v
  | none => none

/-- A model response whose payload is a nested JSON object (counterexample input). -/
def tNested : List Char := lc "[USER_DATA_JSON] \x7b\"a\": \x7b\"b\": 1\x7d\x7d [END_OF_PLAN]"

/-- The nested object embedded in `tNested`. -/
def jNested : Json := Json.obj [(lc "a", Json.obj [(lc "b", Json.num 1)])]

/-- A model response with the terminal marker, a matching payload pattern, but
unparseable JSON inside the braces. -/
def tBadJson : List Char := lc "[USER_DATA_JSON] \x7boops\x7d hello [END_OF_PLAN]"

/-- A model response with no markers at all. -/
def aiPlain : List Char := lc "Drink plenty of water today."

/-- A model response with the terminal marker but no payload marker. -/
def aiNoPayload : List Char := lc "Here is your plan. [END_OF_PLAN]"

/-- A model response whose payload is the empty JSON object. -/
def aiEmptyPayload : List Char := lc "[USER_DATA_JSON] \x7b\x7d Here is a plan. [END_OF_PLAN]"

/-- Witness decomposition pieces of a well-formed flat-payload response. -/
def preW : List Char := lc "Intro "

/-- Whitespace between the payload marker and the opening brace in the witness. -/
def wsW : List Char := [' ']

/-- The flat-object interior of the witness payload. -/
def midW : List Char := lc "\"name\": \"Alex\", \"age\": 30"

/-- Trailing text of the witness response. -/
def postW : List Char := lc "\n1. eat well\n[END_OF_PLAN]"

/-- The decoded witness payload. -/
def jFlat : Json := Json.obj [(lc "name", Json.str (lc "Alex")), (lc "age", Json.num 30)]

/-- A profile payload that itself carries a (stale) `user_id` field. -/
def profW : ProfileDict := [(userIdKey, Json.num 99), (nameKey, Json.str (lc "Alex"))]

/-- A one-field profile payload. -/
def pd1 : ProfileDict := [(nameKey, Json.str (lc "Alex"))]

/-- A stored profile with a last plan, for the returning-user branch. -/
def udW : LoadedProfile :=
  { profile := [(nameKey, Json.str (lc "Alex"))], last_plan := lc "old plan" }

theorem lstrip_idem (s : List Char) : lstrip (lstrip s) = lstrip s :=
  List.dropWhile_idempotent isSpace s

theorem rstrip_idem (s : List Char) : rstrip (rstrip s) = rstrip s :=
  List.rdropWhile_idempotent isSpace s

theorem lstrip_rstrip (s : List Char) : lstrip (rstrip (lstrip s)) = rstrip (lstrip s) := by
  have hy : lstrip (lstrip s) = lstrip s := lstrip_idem s
  obtain ⟨t, ht⟩ := List.rdropWhile_prefix isSpace (lstrip s)
  cases hrs : rstrip (lstrip s) with
  | nil => simp [lstrip]
  | cons c cs =>
    have hrs' : List.rdropWhile isSpace (lstrip s) = c :: cs := hrs
    have hyy : lstrip s = c :: (cs ++ t) := by
      rw [← ht, hrs']; simp
    have hc : isSpace c = false := by
      by_contra hcc
      have hc' : isSpace c = true := by revert hcc; cases isSpace c <;> simp
      have h1 : lstrip (lstrip s) = List.dropWhile isSpace (cs ++ t) := by
        rw [hyy]; simp [lstrip, List.dropWhile_cons, hc']
      have h2 : (List.dropWhile isSpace (cs ++ t)).length ≤ (cs ++ t).length :=
        (List.dropWhile_suffix isSpace).sublist.length_le
      rw [hy, hyy] at h1
      have h3 : (c :: (cs ++ t)).length = (cs ++ t).length + 1 := by simp
      rw [h1] at h3
      omega
    simp [lstrip, List.dropWhile_cons, hc]

theorem strip_idem (s : List Char) : strip (strip s) = strip s := by
  show rstrip (lstrip (rstrip (lstrip s))) = rstrip (lstrip s)
  rw [lstrip_rstrip, rstrip_idem]

theorem takeWhile_middle (p : Char → Bool) (ws : List Char) (a : Char) (rest : List Char)
    (h : ∀ c ∈ ws, p c = true) (ha : p a = false) :
    (ws ++ a :: rest).takeWhile p = ws := by
  induction ws with
  | nil => simp [List.takeWhile_cons, ha]
  | cons w wtl ih =>
    have hw : p w = true := h w (by simp)
    simp only [List.cons_append, List.takeWhile_cons, hw]
    rw [ih (fun c hc => h c (by simp [hc]))]
    simp

theorem dropWhile_middle (p : Char → Bool) (ws : List Char) (a : Char) (rest : List Char)
    (h : ∀ c ∈ ws, p c = true) (ha : p a = false) :
    (ws ++ a :: rest).dropWhile p = a :: rest := by
  induction ws with
  | nil => simp [List.dropWhile_cons, ha]
  | cons w wtl ih =>
    have hw : p w = true := h w (by simp)
    simp only [List.cons_append, List.dropWhile_cons, hw, if_true]
    exact ih (fun c hc => h c (by simp [hc]))

theorem isPre_append (xs ys : List Char) : isPre xs (xs ++ ys) = true := by
  induction xs with
  | nil => rfl
  | cons x xtl ih => simp [isPre, ih]

theorem isPre_cons_of_ne (x : Char) (xs : List Char) (c : Char) (cs : List Char)
    (h : x ≠ c) : isPre (x :: xs) (c :: cs) = false := by
  simp [isPre, h]

theorem searchPayload_cons (c : Char) (cs : List Char) :
    searchPayload (c :: cs)
      = if isPre payloadMarker (c :: cs) then
          match matchAt ((c :: cs).drop payloadMarker.length) with
          | some (ws, g1) => some ((payloadMarker ++ ws) ++ g1, g1)
          | none => searchPayload cs
        else searchPayload cs := by
  rw [searchPayload]

theorem matchAt_found (ws mid post : List Char)
    (hws : ∀ c ∈ ws, isSpace c = true) (hmid : rbrace ∉ mid) :
    matchAt (ws ++ (lbrace :: (mid ++ rbrace :: post)))
      = some (ws, lbrace :: (mid ++ [rbrace])) := by
  have hlb : isSpace lbrace = false := rfl
  have htake : (ws ++ (lbrace :: (mid ++ rbrace :: post))).takeWhile isSpace = ws :=
    takeWhile_middle isSpace ws lbrace _ hws hlb
  have hdrop : (ws ++ (lbrace :: (mid ++ rbrace :: post))).dropWhile isSpace
      = lbrace :: (mid ++ rbrace :: post) :=
    dropWhile_middle isSpace ws lbrace _ hws hlb
  have hmid' : ∀ c ∈ mid, notRb c = true := by
    intro c hc
    have hcr : c ≠ rbrace := fun h => hmid (h ▸ hc)
    simp [notRb, hcr]
  have hrb : notRb rbrace = false := by simp [notRb]
  have htake2 : (mid ++ rbrace :: post).takeWhile notRb = mid :=
    takeWhile_middle notRb mid rbrace post hmid' hrb
  have hdrop2 : (mid ++ rbrace :: post).dropWhile notRb = rbrace :: post :=
    dropWhile_middle notRb mid rbrace post hmid' hrb
  simp only [matchAt, htake, hdrop, htake2, hdrop2]
  simp

theorem searchPayload_found (pre ws mid post : List Char)
    (hpre : '[' ∉ pre)
    (hws : ∀ c ∈ ws, isSpace c = true)
    (hmid : rbrace ∉ mid) :
    searchPayload (pre ++ (payloadMarker ++ ws ++ (lbrace :: (mid ++ rbrace :: post))))
      = some ((payloadMarker ++ ws) ++ (lbrace :: (mid ++ [rbrace])),
              lbrace :: (mid ++ [rbrace])) := by
  induction pre with
  | nil =>
    have hM : payloadMarker = '[' :: lc "USER_DATA_JSON]" := rfl
    rw [List.nil_append, List.append_assoc, hM, List.cons_append, searchPayload_cons,
      ← List.cons_append, ← hM, isPre_append, List.drop_left,
      matchAt_found ws mid post hws hmid]
    simp
  | cons a pretl ih =>
    have ha : ('[' : Char) ≠ a := by
      intro h
      subst h
      exact hpre (List.mem_cons_self _ _)
    have hM : payloadMarker = '[' :: lc "USER_DATA_JSON]" := rfl
    rw [List.cons_append, searchPayload_cons]
    have hfalse : isPre payloadMarker
        (a :: (pretl ++ (payloadMarker ++ ws ++ (lbrace :: (mid ++ rbrace :: post))))) = false := by
      rw [hM]
      exact isPre_cons_of_ne _ _ _ _ ha
    rw [hfalse]
    simp only [Bool.false_eq_true, if_false]
    exact ih (fun h => hpre (List.mem_cons_of_mem a h))

theorem openRows_append (uid : Nat) (l1 l2 : List PlanRow) :
    openRows uid (l1 ++ l2) = openRows uid l1 ++ openRows uid l2 := by
  induction l1 with
  | nil => simp [openRows]
  | cons r rs ih =>
    by_cases h : r.user_id = uid ∧ r.end_date = none <;> simp [openRows, h, ih]

theorem openRows_closeOpen (uid now : Nat) (l : List PlanRow) :
    openRows uid (closeOpen uid now l) = [] := by
  induction l with
  | nil => simp [closeOpen, openRows]
  | cons r rs ih =>
    by_cases h : r.user_id = uid ∧ r.end_date = none
    · simp [closeOpen, h, openRows, ih]
    · simp [closeOpen, h, openRows, ih]

theorem closeOpen_append (uid now : Nat) (l1 l2 : List PlanRow) :
    closeOpen uid now (l1 ++ l2) = closeOpen uid now l1 ++ closeOpen uid now l2 := by
  induction l1 with
  | nil => simp [closeOpen]
  | cons r rs ih => simp [closeOpen, ih]

theorem isEmpty_false_of_ne_nil {p : ProfileDict} (h : p ≠ []) : p.isEmpty = false := by
  cases p with
  | nil => exact absurd rfl h
  | cons a as => rfl

theorem openRows_save (uid : Nat) (p : ProfileDict) (pl : List Char) (t : Nat) (db : DB)
    (h : p ≠ []) :
    openRows uid ((save_new_plan_and_profile uid p pl t db).plans)
      = [{ user_id := uid, plan_text := pl, profile_json := p,
           start_date := t, end_date := none }] := by
  have he : p.isEmpty = false := isEmpty_false_of_ne_nil h
  simp [save_new_plan_and_profile, he, openRows_append, openRows_closeOpen, openRows]

theorem save_preserves_at_most_one_open (uid : Nat) (p : ProfileDict) (pl : List Char)
    (t : Nat) (db : DB) (h : (openRows uid db.plans).length ≤ 1) :
    (openRows uid ((save_new_plan_and_profile uid p pl t db).plans)).length ≤ 1 := by
  by_cases hp : p = []
  · subst hp
    simpa [save_new_plan_and_profile] using h
  · rw [openRows_save uid p pl t db hp]
    simp

theorem foldl_save_at_most_one_open (uid : Nat)
    (calls : List (ProfileDict × List Char × Nat)) :
    ∀ db : DB, (openRows uid db.plans).length ≤ 1 →
      (openRows uid ((calls.foldl
          (fun d c => save_new_plan_and_profile uid c.1 c.2.1 c.2.2 d) db).plans)).length ≤ 1 := by
  induction calls with
  | nil => intro db h; simpa using h
  | cons c cs ih =>
    intro db h
    exact ih _ (save_preserves_at_most_one_open uid c.1 c.2.1 c.2.2 db h)

theorem getKey_setKey (d : ProfileDict) (k : List Char) (v : Json) :
    getKey (setKey d k v) k = some v := by
  induction d with
  | nil => simp [setKey, getKey]
  | cons kv rest ih =>
    obtain ⟨k0, v0⟩ := kv
    by_cases h : k0 = k <;> simp [setKey, getKey, h, ih]

/-- Claim C1 (code-bug evidence): on the first message of a session lifetime the
text forwarded to the model engine is the raw user message with the generic
RULE A reminder appended — identically whether `_load_profile` returned no
profile or a stored profile — and it differs from the priming context
(`initial_prompt`) that the handler computes on lines 248-268 and never sends. -/
theorem first_turn_priming_context_never_sent :
    (main_chat_handler 7 (lc "hi") false none (fun _ => aiPlain) 0 dbEmpty).forwarded
        = lc "hi" ++ firstTurnReminder
    ∧ (main_chat_handler 7 (lc "hi") false (some udW) (fun _ => aiPlain) 0 dbEmpty).forwarded
        = lc "hi" ++ firstTurnReminder
    ∧ (main_chat_handler 7 (lc "hi") false none (fun _ => aiPlain) 0 dbEmpty).forwarded
        ≠ initial_prompt none (lc "hi")
    ∧ (main_chat_handler 7 (lc "hi") false (some udW) (fun _ => aiPlain) 0 dbEmpty).forwarded
        ≠ initial_prompt (some udW) (lc "hi") :=
  ⟨rfl, rfl, by decide, by decide⟩

/-- Claim C2 (amended): `extract_profile_json` returns the decoded object exactly
when the span from the first brace after the payload marker to the first closing
brace is itself valid JSON (the lazy regex `\{.*?\}` cannot span a nested
closing brace); it returns none, without raising, when the pattern does not
match or when that span fails to parse. -/
theorem extract_profile_json_first_brace_span (pre ws mid post : List Char) (j : Json)
    (hpre : '[' ∉ pre) (hws : ∀ c ∈ ws, isSpace c = true) (hmid : rbrace ∉ mid)
    (hparse : jsonParse (lbrace :: (mid ++ [rbrace])) = some j) :
    extract_profile_json
        (pre ++ (payloadMarker ++ ws ++ (lbrace :: (mid ++ rbrace :: post)))) = some j
    ∧ (∀ t, searchPayload t = none → extract_profile_json t = none)
    ∧ (∀ t g0 g1, searchPayload t = some (g0, g1) → jsonParse g1 = none →
        extract_profile_json t = none) := by
  refine ⟨?_, ?_, ?_⟩
  · have hsp := searchPayload_found pre ws mid post hpre hws hmid
    unfold extract_profile_json
    rw [hsp]
    exact hparse
  · intro t ht
    simp [extract_profile_json, ht]
  · intro t g0 g1 ht hp
    simp [extract_profile_json, ht, hp]

/-- Witness for claim C2 on a concrete flat-payload response. -/
theorem extract_profile_json_first_brace_span_witness :
    ('[' ∉ preW ∧ (∀ c ∈ wsW, isSpace c = true) ∧ rbrace ∉ midW
      ∧ jsonParse (lbrace :: (midW ++ [rbrace])) = some jFlat)
    ∧ extract_profile_json
        (preW ++ (payloadMarker ++ wsW ++ (lbrace :: (midW ++ rbrace :: postW)))) = some jFlat :=
  ⟨⟨by decide, by decide, by decide, rfl⟩,
   (extract_profile_json_first_brace_span preW wsW midW postW jFlat
      (by decide) (by decide) (by decide) rfl).1⟩

/-- Claim C2 counterexample: in `tNested` a syntactically valid JSON object sits
immediately after the payload marker, yet `extract_profile_json` returns none
(the lazy span stops at the first closing brace and fails to parse), not that
object. -/
theorem extract_profile_json_nested_object_lost :
    (afterPayloadMarker tNested).bind parseHeadValue = some jNested
    ∧ extract_profile_json tNested = none
    ∧ extract_profile_json tNested ≠ some jNested := by
  have h0 : extract_profile_json tNested = none := rfl
  refine ⟨rfl, h0, ?_⟩
  intro h
  rw [h0] at h
  exact Option.noConfusion h

/-- Claim C3: starting from a state with at most one open plan row for the user,
any sequence of saves keeps at most one open row; two successive saves leave
exactly the second call's new row open, and the first call's row is present
closed with the second call's timestamp. -/
theorem one_open_plan_invariant (uid : Nat) (db : DB)
    (calls : List (ProfileDict × List Char × Nat))
    (p1 p2 : ProfileDict) (pl1 pl2 : List Char) (t1 t2 : Nat)
    (hinv : (openRows uid db.plans).length ≤ 1) (h1 : p1 ≠ []) (h2 : p2 ≠ []) :
    (openRows uid ((calls.foldl
        (fun d c => save_new_plan_and_profile uid c.1 c.2.1 c.2.2 d) db).plans)).length ≤ 1
    ∧ openRows uid ((save_new_plan_and_profile uid p2 pl2 t2
          (save_new_plan_and_profile uid p1 pl1 t1 db)).plans)
        = [{ user_id := uid, plan_text := pl2, profile_json := p2,
             start_date := t2, end_date := none }]
    ∧ { user_id := uid, plan_text := pl1, profile_json := p1, start_date := t1,
        end_date := some t2 } ∈ (save_new_plan_and_profile uid p2 pl2 t2
          (save_new_plan_and_profile uid p1 pl1 t1 db)).plans := by
  have h1e := isEmpty_false_of_ne_nil h1
  have h2e := isEmpty_false_of_ne_nil h2
  refine ⟨foldl_save_at_most_one_open uid calls db hinv,
    openRows_save uid p2 pl2 t2 _ h2, ?_⟩
  simp [save_new_plan_and_profile, h1e, h2e, closeOpen_append, closeOpen]

/-- Witness for claim C3 on two concrete saves from the empty database. -/
theorem one_open_plan_invariant_witness :
    ((openRows 7 dbEmpty.plans).length ≤ 1 ∧ pd1 ≠ [])
    ∧ openRows 7 ((save_new_plan_and_profile 7 pd1 (lc "plan two") 2
          (save_new_plan_and_profile 7 pd1 (lc "plan one") 1 dbEmpty)).plans)
        = [{ user_id := 7, plan_text := lc "plan two", profile_json := pd1,
             start_date := 2, end_date := none }] :=
  ⟨⟨by simp [openRows, dbEmpty], by simp [pd1]⟩,
   (one_open_plan_invariant 7 dbEmpty [] pd1 pd1 (lc "plan one") (lc "plan two") 1 2
      (by simp [openRows, dbEmpty]) (by simp [pd1]) (by simp [pd1])).2.1⟩

/-- Claim C4: when the response carries the terminal marker but payload
extraction yields none, the delivered reply is the response with every
occurrence of the terminal marker removed and trimmed, and the `users` /
`plan_history` state is untouched. -/
theorem terminal_marker_without_payload_fallback (uid : Nat) (msg : List Char)
    (sess : Bool) (load : Option LoadedProfile) (now : Nat) (db : DB) (ai : List Char)
    (h1 : containsSub endMarker ai = true)
    (h2 : extract_profile_json ai = none) :
    (main_chat_handler uid msg sess load (fun _ => ai) now db).reply
        = strip (removeAll endMarker ai)
    ∧ (main_chat_handler uid msg sess load (fun _ => ai) now db).db = db := by
  constructor <;> simp [main_chat_handler, h1, h2, profileTruthy]

/-- Witness for claim C4 on a marker-bearing response with no payload. -/
theorem terminal_marker_without_payload_fallback_witness :
    (containsSub endMarker aiNoPayload = true ∧ extract_profile_json aiNoPayload = none)
    ∧ ((main_chat_handler 1 (lc "hi") false none (fun _ => aiNoPayload) 0 dbEmpty).reply
          = strip (removeAll endMarker aiNoPayload)
       ∧ (main_chat_handler 1 (lc "hi") false none (fun _ => aiNoPayload) 0 dbEmpty).db
          = dbEmpty) :=
  ⟨⟨rfl, rfl⟩,
   terminal_marker_without_payload_fallback 1 (lc "hi") false none 0 dbEmpty aiNoPayload rfl rfl⟩

/-- Claim C5: a response without the terminal marker is delivered verbatim and
the `users` / `plan_history` state is untouched. -/
theorem no_terminal_marker_reply_verbatim (uid : Nat) (msg : List Char)
    (sess : Bool) (load : Option LoadedProfile) (now : Nat) (db : DB) (ai : List Char)
    (h : containsSub endMarker ai = false) :
    (main_chat_handler uid msg sess load (fun _ => ai) now db).reply = ai
    ∧ (main_chat_handler uid msg sess load (fun _ => ai) now db).db = db := by
  constructor <;> simp [main_chat_handler, h]

/-- Witness for claim C5 on a plain response. -/
theorem no_terminal_marker_reply_verbatim_witness :
    containsSub endMarker aiPlain = false
    ∧ ((main_chat_handler 1 (lc "hi") true none (fun _ => aiPlain) 0 dbEmpty).reply = aiPlain
       ∧ (main_chat_handler 1 (lc "hi") true none (fun _ => aiPlain) 0 dbEmpty).db = dbEmpty) :=
  ⟨rfl, no_terminal_marker_reply_verbatim 1 (lc "hi") true none 0 dbEmpty aiPlain rfl⟩

/-- Claim C6 (amended): `extract_plan_text` is total and returns the text with
every terminal-marker occurrence removed and trimmed, and additionally with the
payload pattern's full match removed whenever that pattern matches — it falls
back to stripping only the terminal marker exactly when the payload pattern
does not match, not whenever payload parsing failed. -/
theorem extract_plan_text_total_behaviour (t : List Char) :
    (searchPayload (strip (removeAll endMarker t)) = none →
      extract_plan_text t = strip (removeAll endMarker t))
    ∧ (∀ g0 g1, searchPayload (strip (removeAll endMarker t)) = some (g0, g1) →
      extract_plan_text t = strip (removeAll g0 (strip (removeAll endMarker t)))) := by
  constructor
  · intro h
    simp [extract_plan_text, h, strip_idem]
  · intro g0 g1 h
    simp [extract_plan_text, h, strip_idem]

/-- Witness for claim C6 on a marker-only response. -/
theorem extract_plan_text_total_behaviour_witness :
    searchPayload (strip (removeAll endMarker aiNoPayload)) = none
    ∧ extract_plan_text aiNoPayload = strip (removeAll endMarker aiNoPayload) :=
  ⟨rfl, (extract_plan_text_total_behaviour aiNoPayload).1 rfl⟩

/-- Claim C6 counterexample: on `tBadJson` payload extraction fails (bad JSON),
yet `extract_plan_text` removes the matched payload span as well, so the result
is not the text with only the terminal marker stripped. -/
theorem extract_plan_text_strips_unparsed_span :
    extract_profile_json tBadJson = none
    ∧ extract_plan_text tBadJson = lc "hello"
    ∧ extract_plan_text tBadJson ≠ strip (removeAll endMarker tBadJson) := by
  refine ⟨rfl, rfl, ?_⟩
  decide

/-- Claim C7 (amended): `_load_profile` returns none, without raising, when the
profile row is absent; a transport/auth error anywhere in the lookup is caught
and also yields none (degrading to the new-user path), and the two successful
shapes return the profile with the latest open plan text or the default
message. -/
theorem load_profile_absent_and_error_behaviour (pq : QueryResult (List Char))
    (p : ProfileDict) (ps : List ProfileDict) (t : List Char) (ts : List (List Char)) :
    load_profile (QueryResult.ok []) pq = none
    ∧ load_profile QueryResult.err pq = none
    ∧ load_profile (QueryResult.ok (p :: ps)) QueryResult.err = none
    ∧ load_profile (QueryResult.ok (p :: ps)) (QueryResult.ok [])
        = some { profile := p, last_plan := noPlanMsg }
    ∧ load_profile (QueryResult.ok (p :: ps)) (QueryResult.ok (t :: ts))
        = some { profile := p, last_plan := t } :=
  ⟨rfl, rfl, rfl, rfl, rfl⟩

/-- Claim C7 counterexample: the transport-error outcome is the same value as
the row-absent outcome, so no distinct failure is surfaced. -/
theorem load_profile_transport_error_not_distinct :
    load_profile QueryResult.err (QueryResult.ok [])
        = load_profile (QueryResult.ok []) (QueryResult.ok [])
    ∧ load_profile QueryResult.err (QueryResult.ok []) = none :=
  ⟨rfl, rfl⟩

/-- Claim C8: on every turn — first or later — the forwarded text is the user's
raw message with a standing output-contract reminder appended, and both
reminder texts spell out the payload and terminal marker tokens. -/
theorem reminder_appended_every_turn (uid : Nat) (msg : List Char) (sess : Bool)
    (load : Option LoadedProfile) (respond : List Char → List Char) (now : Nat) (db : DB) :
    (main_chat_handler uid msg sess load respond now db).forwarded
        = msg ++ (if sess then activeSessionReminder else firstTurnReminder)
    ∧ containsSub payloadMarker firstTurnReminder = true
    ∧ containsSub endMarker firstTurnReminder = true
    ∧ containsSub payloadMarker activeSessionReminder = true
    ∧ containsSub endMarker activeSessionReminder = true := by
  cases sess <;> exact ⟨rfl, rfl, rfl, rfl, rfl⟩

/-- Claim C9: a payload decoding to the empty JSON object is treated like a
missing payload — the reply is the marker-stripped text, the durable state is
untouched — and the save operation itself is a no-op on an empty profile. -/
theorem empty_payload_treated_as_missing (uid : Nat) (msg : List Char)
    (sess : Bool) (load : Option LoadedProfile) (now : Nat) (db : DB) (ai : List Char)
    (h1 : containsSub endMarker ai = true)
    (h2 : extract_profile_json ai = some (Json.obj [])) :
    (main_chat_handler uid msg sess load (fun _ => ai) now db).reply
        = strip (removeAll endMarker ai)
    ∧ (main_chat_handler uid msg sess load (fun _ => ai) now db).db = db
    ∧ (∀ (p : List Char) (t : Nat) (d : DB), save_new_plan_and_profile uid [] p t d = d) := by
  refine ⟨?_, ?_, fun p t d => rfl⟩ <;>
    simp [main_chat_handler, h1, h2, profileTruthy, jsonTruthy]

/-- Witness for claim C9 on a response carrying the empty object payload. -/
theorem empty_payload_treated_as_missing_witness :
    (containsSub endMarker aiEmptyPayload = true
      ∧ extract_profile_json aiEmptyPayload = some (Json.obj []))
    ∧ ((main_chat_handler 1 (lc "hi") false none (fun _ => aiEmptyPayload) 0 dbEmpty).reply
          = strip (removeAll endMarker aiEmptyPayload)
       ∧ (main_chat_handler 1 (lc "hi") false none (fun _ => aiEmptyPayload) 0 dbEmpty).db
          = dbEmpty) :=
  ⟨⟨rfl, rfl⟩,
   ⟨(empty_payload_treated_as_missing 1 (lc "hi") false none 0 dbEmpty aiEmptyPayload rfl rfl).1,
    (empty_payload_treated_as_missing 1 (lc "hi") false none 0 dbEmpty aiEmptyPayload rfl rfl).2.1⟩⟩

/-- Claim C10: the upserted `users` row is keyed by the caller's `user_id`,
written over any `user_id` field the payload carried, while the plan row's
`profile_json` snapshot is the caller's original dict, unmodified. -/
theorem save_profile_keyed_by_caller (uid : Nat) (profile : ProfileDict)
    (pl : List Char) (t : Nat) (db : DB) (h : profile ≠ []) :
    (save_new_plan_and_profile uid profile pl t db).users
        = upsertUser uid (setKey profile userIdKey (Json.num (uid : Int))) db.users
    ∧ getKey (setKey profile userIdKey (Json.num (uid : Int))) userIdKey
        = some (Json.num (uid : Int))
    ∧ (save_new_plan_and_profile uid profile pl t db).plans.getLast?
        = some { user_id := uid, plan_text := pl, profile_json := profile,
                 start_date := t, end_date := none } := by
  have he : profile.isEmpty = false := isEmpty_false_of_ne_nil h
  refine ⟨?_, getKey_setKey profile userIdKey (Json.num (uid : Int)), ?_⟩
  · simp [save_new_plan_and_profile, he]
  · simp [save_new_plan_and_profile, he, List.getLast?_concat]

/-- Witness for claim C10 on a payload that itself carries a stale `user_id`. -/
theorem save_profile_keyed_by_caller_witness :
    profW ≠ []
    ∧ getKey profW userIdKey = some (Json.num (99 : Int))
    ∧ getKey (setKey profW userIdKey (Json.num (7 : Int))) userIdKey
        = some (Json.num (7 : Int)) :=
  ⟨by simp [profW], rfl,
   (save_profile_keyed_by_caller 7 profW (lc "plan") 0 dbEmpty (by simp [profW])).2.1⟩
